import Mathlib

/-!
Verification of the local-state persistence and synchronization engine of the
MyAnimeSync anime/manga tracker (a client-side React application persisting to
IndexedDB through an idb-keyval style adapter).

The embedding below translates the relevant TypeScript source into Lean:
* the `ListData` aggregate and the list-membership toggles
  (`handleToggleListMembership`, `toggleCurrentlyWatching`,
  `toggleCurrentlyReading` from `src/hooks/use-image-cache.tsx`),
* the storage-quota guard (`checkStorageAndNotify`) and the single mutation
  funnel (`updateAndPersistListData`),
* the tracked-media reconciliation step that runs ~100ms after each toggle,
* the reminder due-check (`isReminderDue` from `src/lib/anilist/requests.ts`)
  and the reminder scheduler pass (`checkRemindersAndCreateNotifications`),
* the hidden-genre computation (`getHiddenGenres`),
* the shared-data sync client (`syncSharedData`, `disconnectFromSharedData`).

Wall-clock instants are modelled as natural numbers of milliseconds since an
epoch falling on a Sunday at 00:00 (so `getDay`, `getHours`, `getMinutes` of
the JavaScript `Date` API become plain arithmetic); all date handling in the
source is in units the model reproduces exactly (date-fns `isPast`, `nextDay`,
`addDays` and `Date.prototype.setHours`).
-/

namespace MyAnimeSync

/-! ## Time model (JavaScript `Date` / date-fns helpers) -/

def msPerDay : Nat := 86400000
def msPerHour : Nat := 3600000
def msPerMinute : Nat := 60000

/-- date-fns `isPast(date)`: `date.getTime() < Date.now()` (strict). -/
def isPast (t now : Nat) : Bool := t < now

/-- `Date.prototype.getDay()`: day of week, 0 = Sunday (epoch is a Sunday). -/
def jsGetDay (t : Nat) : Nat := t / msPerDay % 7

/-- `Date.prototype.getHours()` (model time zone = UTC throughout). -/
def jsGetHours (t : Nat) : Nat := t % msPerDay / msPerHour

/-- `Date.prototype.getMinutes()`. -/
def jsGetMinutes (t : Nat) : Nat := t % msPerHour / msPerMinute

/-- `date.setHours(h, m, 0, 0)`: same calendar day, time-of-day replaced. -/
def jsSetHours (t h m : Nat) : Nat := t / msPerDay * msPerDay + h * msPerHour + m * msPerMinute

/-- date-fns `nextDay(date, day)`: `delta = day - getDay(date); if (delta <= 0)
delta += 7; return addDays(date, delta)` — the next occurrence of weekday
`day`, strictly after `date` (never the same calendar day). -/
def nextDay (t day : Nat) : Nat :=
  let d0 := jsGetDay t
  let delta := if day ≤ d0 then day + 7 - d0 else day - d0
  t + delta * msPerDay

/-! ## Data model (`src/hooks/auth/types.ts` as used by the core) -/

/-- A media record as cached in `trackedMedia`; `synopsis` is optional and is
stripped (`none`) before the record is stored. -/
structure Anime where
  id : Nat
  type : String
  episodes : Option Nat
  chapters : Option Nat
  volumes : Option Nat
  title : String
  synopsis : Option String
  deriving Repr, DecidableEq

/-- `const { synopsis, ...mediaWithoutSynopsis } = media` -/
def stripSynopsis (m : Anime) : Anime := { m with synopsis := none }

structure Reminder where
  id : String
  mediaId : Nat
  title : String
  notes : String
  startDateTime : Nat
  repeatIntervalDays : Nat
  repeatOnDays : List Nat
  autoStopOnCompletion : Bool
  createdAt : Nat
  deriving Repr, DecidableEq

/-- The `UserNotification` tagged union: `news`, `reminder` and `storage`
variants (fields reduced to those the core reads or writes). -/
inductive UserNotification where
  | news (id : String) (mediaId : Nat) (message : String) (timestamp : String) (seen : Bool)
  | reminderNote (id : String) (reminderId : String) (mediaId : Nat) (title : String)
      (message : String) (timestamp : String) (seen : Bool)
  | storage (id : String) (title : String) (message : String) (timestamp : String) (seen : Bool)
  deriving Repr, DecidableEq

def UserNotification.isStorage : UserNotification → Bool
  | .storage _ _ _ _ _ => true
  | _ => false

/-- `n.type === 'reminder' && n.reminderId === rid` -/
def UserNotification.isReminderFor (rid : String) : UserNotification → Bool
  | .reminderNote _ reminderId _ _ _ _ _ => reminderId == rid
  | _ => false

def UserNotification.isReminderKind : UserNotification → Bool
  | .reminderNote _ _ _ _ _ _ _ => true
  | _ => false

/-- Entry of the `readChapters` map: `{ read, lastRead }`. -/
structure ReadChaptersEntry where
  read : List String
  lastRead : String
  deriving Repr, DecidableEq

/-- The `ListData` root aggregate (fields the verified core reads or writes;
maps are association lists keyed by media id). -/
structure ListData where
  planToWatch : List Nat
  currentlyWatching : List Nat
  planToRead : List Nat
  currentlyReading : List Nat
  watchedEpisodes : List (Nat × List String)
  readChapters : List (Nat × ReadChaptersEntry)
  notifications : List UserNotification
  reminders : List Reminder
  hiddenGenres : List String
  sensitiveContentUnlocked : Bool
  storageQuota : Nat
  deriving Repr, DecidableEq

def DEFAULT_STORAGE_QUOTA : Nat := 1 * 1024 * 1024 * 1024

def initialListData : ListData :=
  { planToWatch := [], currentlyWatching := [], planToRead := [], currentlyReading := []
    watchedEpisodes := [], readChapters := [], notifications := [], reminders := []
    hiddenGenres := [], sensitiveContentUnlocked := false
    storageQuota := DEFAULT_STORAGE_QUOTA }

/-! ## List-membership toggles -/

/-- Names of the four primary lists. -/
inductive PrimaryList where
  | planToWatch | currentlyWatching | planToRead | currentlyReading
  deriving Repr, DecidableEq

def getList (d : ListData) : PrimaryList → List Nat
  | .planToWatch => d.planToWatch
  | .currentlyWatching => d.currentlyWatching
  | .planToRead => d.planToRead
  | .currentlyReading => d.currentlyReading

def setList (d : ListData) (n : PrimaryList) (l : List Nat) : ListData :=
  match n with
  | .planToWatch => { d with planToWatch := l }
  | .currentlyWatching => { d with currentlyWatching := l }
  | .planToRead => { d with planToRead := l }
  | .currentlyReading => { d with currentlyReading := l }

/-- Body of the `handleToggleListMembership` transformer:
`list.includes(id) ? list.filter(x => x !== id) : [...list, id]`. -/
def toggleList (l : List Nat) (id : Nat) : List Nat :=
  if l.contains id then l.filter (· ≠ id) else l ++ [id]

/-- The state update produced by `handleToggleListMembership(media, listName)`
(the in-memory merge `{ ...currentData, [listName]: newList }`). -/
def handleToggleUpdate (mediaId : Nat) (listName : PrimaryList) (d : ListData) : ListData :=
  setList d listName (toggleList (getList d listName) mediaId)

/-- The state update produced by `toggleCurrentlyWatching(anime)`:
always filters the id out of `planToWatch` and toggles `currentlyWatching`. -/
def toggleCurrentlyWatchingUpdate (mediaId : Nat) (d : ListData) : ListData :=
  { d with
    planToWatch := d.planToWatch.filter (· ≠ mediaId)
    currentlyWatching :=
      if d.currentlyWatching.contains mediaId then
        d.currentlyWatching.filter (· ≠ mediaId)
      else
        d.currentlyWatching ++ [mediaId] }

/-- The state update produced by `toggleCurrentlyReading(manga)`:
always filters the id out of `planToRead` and toggles `currentlyReading`. -/
def toggleCurrentlyReadingUpdate (mediaId : Nat) (d : ListData) : ListData :=
  { d with
    planToRead := d.planToRead.filter (· ≠ mediaId)
    currentlyReading :=
      if d.currentlyReading.contains mediaId then
        d.currentlyReading.filter (· ≠ mediaId)
      else
        d.currentlyReading ++ [mediaId] }

/-! ## Storage quota guard and the single mutation funnel -/

/-- Result of `navigator.storage.estimate()` at the moment the guard runs:
`none` = the API is unavailable (the guard then allows the write), otherwise
`some usage` (`estimate.usage || 0`). -/
def StorageEstimate := Option Nat

/-- `updatedData.storageQuota || DEFAULT_STORAGE_QUOTA` (JS `||`: 0 is falsy). -/
def effectiveQuota (d : ListData) : Nat :=
  if d.storageQuota = 0 then DEFAULT_STORAGE_QUOTA else d.storageQuota

/-- The `StorageNotification` built inside `checkStorageAndNotify`. -/
def storageWarning (notifId ts : String) : UserNotification :=
  .storage notifId "Storage Limit Reached"
    "Increase your storage quota in settings to save new data." ts false

/-- `checkStorageAndNotify(updatedData)`: returns the `canWrite` flag and, on
veto, the payload it best-effort persists itself — `{ ...updatedData,
notifications: [...updatedData.notifications, storageNotification] }`. -/
def checkStorageAndNotify (est : Option Nat) (notifId ts : String) (updatedData : ListData) :
    Bool × Option ListData :=
  match est with
  | none => (true, none)
  | some usage =>
    if usage > effectiveQuota updatedData then
      (false,
       some { updatedData with
                notifications := updatedData.notifications ++ [storageWarning notifId ts] })
    else
      (true, none)

/-- Outcome of one pass through `updateAndPersistListData`: the new in-memory
state, the value written to `IDB_LIST_DATA_KEY` (by the funnel when allowed,
by the guard itself on veto), and whether the write was blocked. -/
structure MutationOutcome where
  memory : ListData
  store : ListData
  blocked : Bool
  deriving Repr, DecidableEq

/-- `updateAndPersistListData(getNewData)`: merges the transformer's result over
the current in-memory data (each call site's shallow merge is embedded as the
total function `f`), updates memory synchronously, then either persists the
merged data (guard allows) or lets the guard persist the merged data plus one
storage warning (guard vetoes; the caller only gets a log line). -/
def updateAndPersistListData (est : Option Nat) (notifId ts : String)
    (f : ListData → ListData) (memory : ListData) : MutationOutcome :=
  let updatedData := f memory
  match checkStorageAndNotify est notifId ts updatedData with
  | (true, _) => { memory := updatedData, store := updatedData, blocked := false }
  | (false, some vetoPayload) => { memory := updatedData, store := vetoPayload, blocked := true }
  | (false, none) => { memory := updatedData, store := updatedData, blocked := true }

/-! ## Tracked-media reconciliation (the ~100ms `setTimeout` bodies) -/

/-- `currentTracked.some(item => item.id === media.id)` -/
def trackedHas (tracked : List Anime) (mediaId : Nat) : Bool :=
  tracked.any (·.id == mediaId)

/-- Membership of an id in the union of the four primary lists, as computed in
`handleToggleListMembership`:
`['planToWatch', ...].some(list => freshListData[list]?.includes(media.id))`. -/
def inAnyList (d : ListData) (mediaId : Nat) : Bool :=
  d.planToWatch.contains mediaId || d.currentlyWatching.contains mediaId ||
  d.planToRead.contains mediaId || d.currentlyReading.contains mediaId

/-- The reconciliation step of `handleToggleListMembership`: reads the fresh
persisted list data, then adds the (synopsis-stripped) record when the id is in
any list and missing from the cache, or removes it when it is in no list. -/
def reconcileTracked (media : Anime) (freshListData : ListData) (currentTracked : List Anime) :
    List Anime :=
  if inAnyList freshListData media.id then
    if trackedHas currentTracked media.id then currentTracked
    else currentTracked ++ [stripSynopsis media]
  else
    currentTracked.filter (·.id ≠ media.id)

/-- The reconciliation step of `toggleCurrentlyWatching` /
`toggleCurrentlyReading`: only ensures the record is present in the cache
(never removes it, and never consults the list data). -/
def ensureTracked (media : Anime) (currentTracked : List Anime) : List Anime :=
  if trackedHas currentTracked media.id then currentTracked
  else currentTracked ++ [stripSynopsis media]

/-- Combined state visible to the toggle pipelines: in-memory list data, the
persisted list data and the persisted tracked-media cache. -/
structure ToggleState where
  memory : ListData
  store : ListData
  tracked : List Anime
  deriving Repr, DecidableEq

/-- `handleToggleListMembership(media, listName)` followed by its ~100ms
reconciliation: mutation through the funnel, then tracked-cache update from
the freshly persisted data. -/
def handleToggleListMembership (est : Option Nat) (notifId ts : String)
    (media : Anime) (listName : PrimaryList) (s : ToggleState) : ToggleState :=
  let out := updateAndPersistListData est notifId ts
    (handleToggleUpdate media.id listName) s.memory
  { memory := out.memory, store := out.store
    tracked := reconcileTracked media out.store s.tracked }

/-- `toggleCurrentlyWatching(anime)` followed by its ~100ms step. -/
def toggleCurrentlyWatching (est : Option Nat) (notifId ts : String)
    (media : Anime) (s : ToggleState) : ToggleState :=
  let out := updateAndPersistListData est notifId ts
    (toggleCurrentlyWatchingUpdate media.id) s.memory
  { memory := out.memory, store := out.store
    tracked := ensureTracked media s.tracked }

/-- `toggleCurrentlyReading(manga)` followed by its ~100ms step. -/
def toggleCurrentlyReading (est : Option Nat) (notifId ts : String)
    (media : Anime) (s : ToggleState) : ToggleState :=
  let out := updateAndPersistListData est notifId ts
    (toggleCurrentlyReadingUpdate media.id) s.memory
  { memory := out.memory, store := out.store
    tracked := ensureTracked media s.tracked }

/-! ## Reminder due-check (`isReminderDue`, `src/lib/anilist/requests.ts`) -/

/-- Insertion of a value into a sorted list (ascending), used to embed
`[...reminder.repeatOnDays].sort((a, b) => a - b)`. -/
def insertSorted (x : Nat) : List Nat → List Nat
  | [] => [x]
  | y :: ys => if x ≤ y then x :: y :: ys else y :: insertSorted x ys

/-- Numeric ascending sort of the configured weekdays. -/
def sortDays (l : List Nat) : List Nat := l.foldr insertSorted []

/-- The `for (const day of sortedRepeatDays)` loop of the weekly branch:
returns `false` at the first configured weekday whose next occurrence (at the
reminder's start time-of-day) is not in the past, `true` once the whole list
has been traversed. -/
def weeklyLoop (now startDate : Nat) : List Nat → Bool
  | [] => true
  | day :: rest =>
    let nextOccurrence := jsSetHours (nextDay now day) (jsGetHours startDate) (jsGetMinutes startDate)
    if !isPast nextOccurrence now then false
    else weeklyLoop now startDate rest

/-- `isReminderDue(reminder)` with `now` passed explicitly. -/
def isReminderDue (r : Reminder) (now : Nat) : Bool :=
  let startDate := r.startDateTime
  if r.repeatIntervalDays = 0 && r.repeatOnDays.isEmpty then
    isPast startDate now
  else if !r.repeatOnDays.isEmpty then
    weeklyLoop now startDate (sortDays r.repeatOnDays)
  else if isPast startDate now then
    let daysSinceStart := (now - startDate) / msPerDay
    (daysSinceStart % r.repeatIntervalDays == 0) || (daysSinceStart > 0)
  else
    false

/-! ## Reminder scheduler pass (`checkRemindersAndCreateNotifications`) -/

/-- JS `a || b` over the nullable numbers `media.chapters || media.volumes`
(`null`, `undefined` and `0` are falsy). -/
def jsOrNum (a b : Option Nat) : Option Nat :=
  match a with
  | some n => if n = 0 then b else some n
  | none => b

/-- Association-list lookup standing in for `map?.[mediaId]`. -/
def lookupAssoc {α : Type} (m : List (Nat × α)) (k : Nat) : Option α :=
  (m.find? (·.1 == k)).map (·.2)

/-- `isMediaCompleted(reminder)`: suppression of an `autoStopOnCompletion`
reminder once watched/read progress reaches the tracked media's total count. -/
def isMediaCompleted (tracked : List Anime) (d : ListData) (r : Reminder) : Bool :=
  if !r.autoStopOnCompletion then false
  else
    match tracked.find? (·.id == r.mediaId) with
    | none => false
    | some media =>
      let totalUnits := if media.type == "MANGA" then jsOrNum media.chapters media.volumes
                        else media.episodes
      match totalUnits with
      | none => false
      | some total =>
        if total = 0 then false
        else if media.type == "MANGA" then
          ((lookupAssoc d.readChapters media.id).map (·.read.length)).getD 0 ≥ total
        else
          ((lookupAssoc d.watchedEpisodes media.id).map (·.length)).getD 0 ≥ total

/-- `notifications.filter(n => n.type === 'reminder').map(n => n.reminderId)`
membership test (the `existingReminderNotifications` set). -/
def hasReminderNotif (notifs : List UserNotification) (rid : String) : Bool :=
  notifs.any (·.isReminderFor rid)

/-- The notification object pushed for a due reminder. -/
def reminderNotifFor (notifId ts : String) (r : Reminder) : UserNotification :=
  .reminderNote notifId r.id r.mediaId r.title r.notes ts false

/-- The `newNotifications` array built by one scheduler pass: one notification
per reminder whose `startDateTime` is past, that has no existing
`reminder`-kind notification, and that is not suppressed by completion. -/
def dueNewNotifications (now : Nat) (tracked : List Anime) (mkId : Reminder → String)
    (ts : String) (d : ListData) : List UserNotification :=
  (d.reminders.filter fun r =>
      isPast r.startDateTime now && !hasReminderNotif d.notifications r.id
        && !isMediaCompleted tracked d r).map
    (fun r => reminderNotifFor (mkId r) ts r)

/-- One pass of `checkRemindersAndCreateNotifications` (its effect on the list
data; the append goes through `updateAndPersistListData`, whose in-memory
result is the merged data regardless of the quota guard's verdict). `mkId`
supplies the `uuidv4()` notification ids, `ts` the shared timestamp. -/
def schedulerPass (now : Nat) (tracked : List Anime) (mkId : Reminder → String)
    (ts : String) (d : ListData) : ListData :=
  let newNotifications := dueNewNotifications now tracked mkId ts d
  if newNotifications.length > 0 then
    { d with notifications := d.notifications ++ newNotifications }
  else d

/-- Number of `reminder`-kind notifications referencing reminder id `rid`. -/
def countReminderNotifs (d : ListData) (rid : String) : Nat :=
  (d.notifications.filter (·.isReminderFor rid)).length

/-! ## Hidden genres (`getHiddenGenres`, `src/lib/anilist/requests.ts`) -/

/-- Modelled from the spec: an entry of the i18n catalog `genres_list` (the
catalog data itself is not under `src/`; the spec describes hidden entries as
"genre/tag names", and the code reads each entry's `name` and its `type`,
`'genre'` or `'tag'`). -/
structure GenreEntry where
  name : String
  type : String
  deriving Repr, DecidableEq

/-- `Array.from(new Set([...a, ...b]))`: concatenation keeping only the first
occurrence of each element. -/
def jsSetDedup : List String → List String
  | [] => []
  | x :: xs => x :: jsSetDedup (xs.filter (· ≠ x))
termination_by l => l.length
decreasing_by exact Nat.lt_succ_of_le (List.length_filter_le _ _)

/-- `getHiddenGenres(listData)`, parameterized by the built-in
`SENSITIVE_GENRES` list and the `genres_list` catalog (both defined outside
`src/`): returns the pair (hidden genres, hidden tags) applied to catalog
queries. `listData = none` embeds the store returning no data. -/
def getHiddenGenres (sensitiveGenres : List String) (genresList : List GenreEntry)
    (listData : Option ListData) : List String × List String :=
  let finalHidden : List String :=
    match listData with
    | none => sensitiveGenres
    | some data =>
      let userHidden := data.hiddenGenres
      if data.sensitiveContentUnlocked then userHidden
      else jsSetDedup (sensitiveGenres ++ userHidden)
  let allGenreNames := genresList.map (·.name)
  let validHidden := finalHidden.filter (fun g => allGenreNames.contains g)
  let hiddenGenres := validHidden.filter
    (fun name => ((genresList.find? (·.name == name)).map (·.type)) == some "genre")
  let hiddenTags := validHidden.filter
    (fun name => ((genresList.find? (·.name == name)).map (·.type)) == some "tag")
  (hiddenGenres, hiddenTags)

/-! ## Shared-data sync client (`syncSharedData`, `disconnectFromSharedData`) -/

structure LocalProfile where
  username : String
  avatar_url : String
  deriving Repr, DecidableEq

structure SharedDataConfig where
  url : Option String
  lastSync : Option String
  lastSize : Option Nat
  lastEtag : Option String
  deriving Repr, DecidableEq

/-- The config written by `disconnectFromSharedData`. -/
def emptySharedConfig : SharedDataConfig :=
  { url := none, lastSync := none, lastSize := none, lastEtag := none }

/-- The JSON body of a shared snapshot (`profile`/`lists`/`layout`/`tracked`;
layout entries are opaque to this core). -/
structure SyncPayload where
  profile : Option LocalProfile
  lists : Option ListData
  layout : Option (List String)
  tracked : Option (List Anime)
  deriving Repr, DecidableEq

/-- The observable outcome of the single proxied fetch: `304`, a 2xx response
(whose body may fail JSON parsing, embedded as `body = none`), a non-ok HTTP
status, or a rejected fetch. -/
inductive SyncResponse where
  | notModified
  | ok (body : Option SyncPayload) (etag : Option String) (contentLength : Option Nat)
  | httpError (statusText : String)
  | networkFailure (message : String)
  deriving Repr, DecidableEq

/-- The persisted stores touched by the sync client (`IDB_PROFILE_KEY`,
`IDB_LIST_DATA_KEY`, `IDB_LAYOUT_CONFIG_KEY`, `IDB_TRACKED_MEDIA_KEY`,
`IDB_SHARED_DATA_KEY`). -/
structure Stores where
  profile : Option LocalProfile
  listData : Option ListData
  layout : Option (List String)
  tracked : Option (List Anime)
  sharedConfig : Option SharedDataConfig
  deriving Repr, DecidableEq

/-- Result of one `syncSharedData(isManualTrigger)` call: the new stores, the
`If-None-Match` header value sent (if any), whether a reload was scheduled,
and which toast was shown. -/
structure SyncResult where
  stores : Stores
  sentIfNoneMatch : Option String
  reloadScheduled : Bool
  toastUpToDate : Bool
  toastSyncFailed : Bool
  performedFetch : Bool
  deriving Repr, DecidableEq

/-- The shared failure path: toast + `disconnectFromSharedData(false)`, which
resets the config (all fields null, including the url) in state and store. -/
def syncFailureResult (hdr : Option String) (st : Stores) : SyncResult :=
  { stores := { st with sharedConfig := some emptySharedConfig }
    sentIfNoneMatch := hdr, reloadScheduled := false
    toastUpToDate := false, toastSyncFailed := true, performedFetch := true }

/-- `syncSharedData(isManualTrigger)`: reads the config from the store, sends
the conditional header unless manually triggered, and handles the single
response `resp` exactly as the source's `try`/`catch` does. -/
def syncSharedData (isManualTrigger : Bool) (resp : SyncResponse) (nowStr : String)
    (st : Stores) : SyncResult :=
  let noFetch : SyncResult :=
    { stores := st, sentIfNoneMatch := none, reloadScheduled := false
      toastUpToDate := false, toastSyncFailed := false, performedFetch := false }
  match st.sharedConfig with
  | none => noFetch
  | some currentConfig =>
    match currentConfig.url with
    | none => noFetch
    | some _ =>
      let hdr := if isManualTrigger then none else currentConfig.lastEtag
      match resp with
      | .notModified =>
        { stores := st, sentIfNoneMatch := hdr, reloadScheduled := false
          toastUpToDate := isManualTrigger, toastSyncFailed := false, performedFetch := true }
      | .ok body etag contentLength =>
        match body with
        | none => syncFailureResult hdr st
        | some data =>
          match data.profile, data.lists with
          | some profile, some lists =>
            let newConfig : SharedDataConfig :=
              { currentConfig with
                  lastSync := some nowStr, lastEtag := etag
                  lastSize := some (contentLength.getD 0) }
            { stores :=
                { profile := some profile
                  listData := some lists
                  layout := if data.layout.isSome then data.layout else st.layout
                  tracked := if data.tracked.isSome then data.tracked else st.tracked
                  sharedConfig := some newConfig }
              sentIfNoneMatch := hdr, reloadScheduled := true
              toastUpToDate := false, toastSyncFailed := false, performedFetch := true }
          | _, _ => syncFailureResult hdr st
      | .httpError _ => syncFailureResult hdr st
      | .networkFailure _ => syncFailureResult hdr st

/-! # Theorems -/

/-! ## Helper lemmas -/

theorem getList_setList (d : ListData) (n : PrimaryList) (l : List Nat) :
    getList (setList d n l) n = l := by
  cases n <;> rfl

theorem getList_handleToggleUpdate (x : Nat) (n : PrimaryList) (d : ListData) :
    getList (handleToggleUpdate x n d) n = toggleList (getList d n) x := by
  cases n <;> rfl

theorem toggleList_of_mem (l : List Nat) (x : Nat) (hx : x ∈ l) :
    toggleList l x = l.filter (· ≠ x) := by
  simp only [toggleList, if_pos (List.elem_iff.mpr hx)]

theorem toggleList_of_not_mem (l : List Nat) (x : Nat) (hx : x ∉ l) :
    toggleList l x = l ++ [x] := by
  have hc : ¬(l.contains x = true) := fun hcc => hx (List.elem_iff.mp hcc)
  simp only [toggleList, if_neg hc]

theorem mem_toggleList_toggleList (l : List Nat) (x y : Nat) :
    y ∈ toggleList (toggleList l x) x ↔ y ∈ l := by
  by_cases hx : x ∈ l
  · have h2 : x ∉ l.filter (· ≠ x) := by simp
    rw [toggleList_of_mem l x hx, toggleList_of_not_mem _ x h2]
    by_cases hy : y = x
    · subst hy; simp [hx]
    · simp [hy, List.mem_filter]
  · have h1 : x ∈ l ++ [x] := by simp
    rw [toggleList_of_not_mem l x hx, toggleList_of_mem _ x h1]
    by_cases hy : y = x
    · subst hy; simp [hx, List.mem_filter]
    · simp [hy, List.mem_filter]

theorem nodup_toggleList_toggleList (l : List Nat) (x : Nat) (h : l.Nodup) :
    (toggleList (toggleList l x) x).Nodup := by
  by_cases hx : x ∈ l
  · have h2 : x ∉ l.filter (· ≠ x) := by simp
    rw [toggleList_of_mem l x hx, toggleList_of_not_mem _ x h2]
    simp only [List.nodup_append, List.nodup_cons, List.not_mem_nil, not_false_iff,
      List.nodup_nil, and_true, true_and]
    refine ⟨h.filter _, ?_⟩
    intro a ha hb
    simp only [List.mem_singleton] at hb
    subst hb
    exact h2 ha
  · have h1 : x ∈ l ++ [x] := by simp
    rw [toggleList_of_not_mem l x hx, toggleList_of_mem _ x h1]
    refine List.Nodup.filter _ ?_
    simp [List.nodup_append, h, hx]

/-! ## C7 — idempotent toggle -/

/-- C7: for each of the four primary lists and every media id `x`, toggling
`x`'s membership via `handleToggleListMembership` twice returns the list to
its original set of members (membership is unchanged for every id `y`), and
introduces no duplicates (a duplicate-free list stays duplicate-free). -/
theorem toggle_twice_restores_list (n : PrimaryList) (d : ListData) (x y : Nat)
    (hnd : (getList d n).Nodup) :
    (y ∈ getList (handleToggleUpdate x n (handleToggleUpdate x n d)) n ↔ y ∈ getList d n)
    ∧ (getList (handleToggleUpdate x n (handleToggleUpdate x n d)) n).Nodup := by
  rw [getList_handleToggleUpdate, getList_handleToggleUpdate]
  exact ⟨mem_toggleList_toggleList _ _ _, nodup_toggleList_toggleList _ _ hnd⟩

/-- Concrete instance of `toggle_twice_restores_list`: the `planToWatch` list
`[1, 2]`, toggling id 2 twice, checking membership of id 2. -/
theorem toggle_twice_restores_list_witness :
    (getList { initialListData with planToWatch := [1, 2] } .planToWatch).Nodup ∧
    ((2 ∈ getList (handleToggleUpdate 2 .planToWatch
          (handleToggleUpdate 2 .planToWatch { initialListData with planToWatch := [1, 2] }))
          .planToWatch
        ↔ 2 ∈ getList { initialListData with planToWatch := [1, 2] } .planToWatch)
      ∧ (getList (handleToggleUpdate 2 .planToWatch
          (handleToggleUpdate 2 .planToWatch { initialListData with planToWatch := [1, 2] }))
          .planToWatch).Nodup) :=
  ⟨by decide, toggle_twice_restores_list .planToWatch _ 2 2 (by decide)⟩

/-! ## C10 — currently-toggles always clear the corresponding plan list -/

/-- C10: `toggleCurrentlyWatching` always removes the media id from
`planToWatch` and `toggleCurrentlyReading` always removes it from
`planToRead` (whether the call adds the id to the currently-list or removes
it), so immediately after either call the id is never simultaneously in the
plan-list and the currently-list. -/
theorem toggle_currently_clears_plan (mediaId : Nat) (d : ListData) :
    (mediaId ∉ (toggleCurrentlyWatchingUpdate mediaId d).planToWatch
      ∧ ¬(mediaId ∈ (toggleCurrentlyWatchingUpdate mediaId d).planToWatch
          ∧ mediaId ∈ (toggleCurrentlyWatchingUpdate mediaId d).currentlyWatching))
    ∧ (mediaId ∉ (toggleCurrentlyReadingUpdate mediaId d).planToRead
      ∧ ¬(mediaId ∈ (toggleCurrentlyReadingUpdate mediaId d).planToRead
          ∧ mediaId ∈ (toggleCurrentlyReadingUpdate mediaId d).currentlyReading)) := by
  have hw : mediaId ∉ (toggleCurrentlyWatchingUpdate mediaId d).planToWatch := by
    simp [toggleCurrentlyWatchingUpdate, List.mem_filter]
  have hr : mediaId ∉ (toggleCurrentlyReadingUpdate mediaId d).planToRead := by
    simp [toggleCurrentlyReadingUpdate, List.mem_filter]
  exact ⟨⟨hw, fun h => hw h.1⟩, ⟨hr, fun h => hr h.1⟩⟩

/-! ## C9 — interval reminder due-check -/

/-- C9: for an interval reminder (`repeatIntervalDays > 0`, no weekly days),
`isReminderDue` returns due exactly when `startDateTime` is in the past AND
(the whole number of elapsed days is a multiple of the interval, or more than
zero days have elapsed); since one of those two disjuncts always holds, the
check is effectively true on every evaluation once the start is past. -/
theorem interval_reminder_due_iff (r : Reminder) (now : Nat)
    (hw : r.repeatOnDays = []) (hi : 0 < r.repeatIntervalDays) :
    (isReminderDue r now = true ↔
      (r.startDateTime < now ∧
        ((now - r.startDateTime) / msPerDay % r.repeatIntervalDays = 0 ∨
          0 < (now - r.startDateTime) / msPerDay)))
    ∧ (isReminderDue r now = true ↔ r.startDateTime < now) := by
  have hne : r.repeatIntervalDays ≠ 0 := Nat.pos_iff_ne_zero.mp hi
  have key : ∀ dss : Nat, dss % r.repeatIntervalDays = 0 ∨ 0 < dss := by
    intro dss
    rcases Nat.eq_zero_or_pos dss with h | h
    · exact Or.inl (by simp [h])
    · exact Or.inr h
  have hdue : isReminderDue r now =
      (decide (r.startDateTime < now) &&
        (((now - r.startDateTime) / msPerDay % r.repeatIntervalDays == 0)
          || ((now - r.startDateTime) / msPerDay > 0))) := by
    simp only [isReminderDue, hw, List.isEmpty_nil, Bool.and_true, Bool.not_true, isPast]
    simp [hne]
  constructor
  · rw [hdue]
    simp only [Bool.and_eq_true, decide_eq_true_eq, Bool.or_eq_true, beq_iff_eq, gt_iff_lt]
  · rw [hdue]
    simp only [Bool.and_eq_true, decide_eq_true_eq, Bool.or_eq_true, beq_iff_eq, gt_iff_lt]
    constructor
    · exact fun h => h.1
    · exact fun h => ⟨h, key _⟩

/-- Concrete instance of `interval_reminder_due_iff`: a reminder with a 3-day
interval started 1ms before `now` is due on every check. -/
theorem interval_reminder_due_iff_witness :
    (([] : List Nat) = [] ∧ 0 < 3) ∧
    (isReminderDue
        { id := "r1", mediaId := 10, title := "t", notes := "", startDateTime := 999
          repeatIntervalDays := 3, repeatOnDays := [], autoStopOnCompletion := false
          createdAt := 0 } 1000 = true
      ↔ (999 : Nat) < 1000) :=
  ⟨⟨rfl, by decide⟩,
    (interval_reminder_due_iff
      { id := "r1", mediaId := 10, title := "t", notes := "", startDateTime := 999
        repeatIntervalDays := 3, repeatOnDays := [], autoStopOnCompletion := false
        createdAt := 0 } 1000 rfl (by decide)).2⟩

/-! ## C1 — storage quota veto -/

/-- C1 counterexample: with simulated usage one byte above the default quota,
toggling id 5 into `planToWatch` from the empty initial data is blocked, yet
the persisted primary payload contains `[5]` — not the pre-mutation empty
list: `checkStorageAndNotify` best-effort persists the *intended updated
data* (plus the warning), so "the stored primary list data remains what it
was before the mutation" is false. -/
theorem quota_veto_counterexample :
    (updateAndPersistListData (some (DEFAULT_STORAGE_QUOTA + 1)) "n1" "ts"
        (handleToggleUpdate 5 .planToWatch) initialListData).blocked = true
    ∧ ¬((updateAndPersistListData (some (DEFAULT_STORAGE_QUOTA + 1)) "n1" "ts"
        (handleToggleUpdate 5 .planToWatch) initialListData).store.planToWatch
          = initialListData.planToWatch) := by
  constructor
  · rfl
  · decide

/-- C1 (amended): when the storage estimate exceeds the effective quota, the
mutation funnel blocks the normal persist and reports the veto to the caller;
the guard appends exactly one `storage`-kind notification and best-effort
persists the *intended updated payload plus that warning* (not the previous
data), while the in-memory state becomes the intended payload without the
warning. -/
theorem quota_veto_amended (usage : Nat) (notifId ts : String)
    (f : ListData → ListData) (memory : ListData)
    (hq : effectiveQuota (f memory) < usage) :
    (updateAndPersistListData (some usage) notifId ts f memory).blocked = true
    ∧ (updateAndPersistListData (some usage) notifId ts f memory).memory = f memory
    ∧ (updateAndPersistListData (some usage) notifId ts f memory).store
        = { f memory with
              notifications := (f memory).notifications ++ [storageWarning notifId ts] }
    ∧ ((updateAndPersistListData (some usage) notifId ts f memory).store.notifications.filter
          (·.isStorage)).length
        = ((f memory).notifications.filter (·.isStorage)).length + 1 := by
  have hcheck : checkStorageAndNotify (some usage) notifId ts (f memory)
      = (false,
         some { f memory with
                  notifications := (f memory).notifications ++ [storageWarning notifId ts] }) := by
    simp [checkStorageAndNotify, hq]
  refine ⟨?_, ?_, ?_, ?_⟩ <;>
    simp [updateAndPersistListData, hcheck, List.filter_append, storageWarning,
      UserNotification.isStorage]

/-- Concrete instance of `quota_veto_amended` (usage one byte over quota,
toggling id 5 into `planToWatch` of the initial data). -/
theorem quota_veto_amended_witness :
    effectiveQuota (handleToggleUpdate 5 .planToWatch initialListData)
        < DEFAULT_STORAGE_QUOTA + 1
    ∧ ((updateAndPersistListData (some (DEFAULT_STORAGE_QUOTA + 1)) "w1" "wts"
          (handleToggleUpdate 5 .planToWatch) initialListData).blocked = true
      ∧ (updateAndPersistListData (some (DEFAULT_STORAGE_QUOTA + 1)) "w1" "wts"
          (handleToggleUpdate 5 .planToWatch) initialListData).memory
            = handleToggleUpdate 5 .planToWatch initialListData
      ∧ (updateAndPersistListData (some (DEFAULT_STORAGE_QUOTA + 1)) "w1" "wts"
          (handleToggleUpdate 5 .planToWatch) initialListData).store
            = { handleToggleUpdate 5 .planToWatch initialListData with
                  notifications :=
                    (handleToggleUpdate 5 .planToWatch initialListData).notifications
                      ++ [storageWarning "w1" "wts"] }
      ∧ ((updateAndPersistListData (some (DEFAULT_STORAGE_QUOTA + 1)) "w1" "wts"
            (handleToggleUpdate 5 .planToWatch) initialListData).store.notifications.filter
              (·.isStorage)).length
          = ((handleToggleUpdate 5 .planToWatch initialListData).notifications.filter
              (·.isStorage)).length + 1) :=
  ⟨by decide,
    quota_veto_amended (DEFAULT_STORAGE_QUOTA + 1) "w1" "wts"
      (handleToggleUpdate 5 .planToWatch) initialListData (by decide)⟩

/-! ## C3 — weekly reminders -/

/-- The next occurrence computed by the weekly branch (`nextDay` then
`setHours` to the reminder's time-of-day) is always strictly in the future:
`nextDay` lands at least one calendar day after `now`. -/
theorem weekly_next_occurrence_future (now startDate day : Nat) :
    isPast (jsSetHours (nextDay now day) (jsGetHours startDate) (jsGetMinutes startDate)) now
      = false := by
  simp only [isPast, jsSetHours, nextDay, jsGetDay, jsGetHours, jsGetMinutes,
    msPerDay, msPerHour, msPerMinute, decide_eq_false_iff_not, not_lt]
  split <;> omega

/-- The weekly `for` loop returns `false` on any non-empty day list. -/
theorem weeklyLoop_cons_false (now startDate day : Nat) (rest : List Nat) :
    weeklyLoop now startDate (day :: rest) = false := by
  unfold weeklyLoop
  simp [weekly_next_occurrence_future]

theorem insertSorted_ne_nil (x : Nat) (l : List Nat) : insertSorted x l ≠ [] := by
  cases l with
  | nil => simp [insertSorted]
  | cons y ys =>
    unfold insertSorted
    split <;> simp

theorem sortDays_ne_nil (a : Nat) (l : List Nat) : sortDays (a :: l) ≠ [] := by
  show insertSorted a (sortDays l) ≠ []
  exact insertSorted_ne_nil _ _

/-- Any reminder with a non-empty `repeatOnDays` is never due according to
`isReminderDue`: `nextDay` always yields a strictly future occurrence, so the
loop exits `false` at its first iteration. -/
theorem weekly_reminder_never_due (r : Reminder) (now : Nat) (h : r.repeatOnDays ≠ []) :
    isReminderDue r now = false := by
  obtain ⟨a, l, hal⟩ : ∃ a l, r.repeatOnDays = a :: l := by
    cases hl : r.repeatOnDays with
    | nil => exact absurd hl h
    | cons a l => exact ⟨a, l, rfl⟩
  have hempty : r.repeatOnDays.isEmpty = false := by rw [hal]; rfl
  obtain ⟨b, m, hbm⟩ : ∃ b m, sortDays r.repeatOnDays = b :: m := by
    cases hs : sortDays r.repeatOnDays with
    | nil => exact absurd (hal ▸ hs) (sortDays_ne_nil a l)
    | cons b m => exact ⟨b, m, rfl⟩
  unfold isReminderDue
  simp only [hempty, Bool.and_false, Bool.not_false, if_false, if_true, hbm,
    weeklyLoop_cons_false]
  simp

/-- C3 counterexample: a weekly reminder with `repeatOnDays = [Monday,
Thursday]` whose `startDateTime` (Sunday 00:00) is in the past at `now`
(Monday 00:00). Its own due-check reports not-due — by `nextDay` semantics a
future occurrence is always pending — yet one scheduler pass DOES create a
reminder notification for it, because `checkRemindersAndCreateNotifications`
only tests `isPast(startDateTime)` and never consults the weekly logic. -/
theorem weekly_scheduler_counterexample :
    isReminderDue
        { id := "w1", mediaId := 1, title := "weekly", notes := ""
          startDateTime := 0, repeatIntervalDays := 0, repeatOnDays := [1, 4]
          autoStopOnCompletion := false, createdAt := 0 } 86400000 = false
    ∧ countReminderNotifs
        (schedulerPass 86400000 [] (fun _ => "n1") "ts"
          { initialListData with
              reminders :=
                [{ id := "w1", mediaId := 1, title := "weekly", notes := ""
                   startDateTime := 0, repeatIntervalDays := 0, repeatOnDays := [1, 4]
                   autoStopOnCompletion := false, createdAt := 0 }] }) "w1" = 1 := by
  constructor
  · decide
  · decide

/-- C3 (amended): the weekly due-check never reports due — for every reminder
with non-empty `repeatOnDays`, each configured weekday's computed next
occurrence is strictly in the future, so `isReminderDue` returns not-due on
every evaluation (the all-occurrences-passed branch is unreachable) — and the
scheduler pass does not consult this weekly logic at all: it creates a
notification for any reminder (weekly included) whose `startDateTime` is
past, not already notified, and not suppressed by completion. -/
theorem weekly_due_amended (r : Reminder) (now : Nat) (tracked : List Anime)
    (mkId : Reminder → String) (ts : String) (d : ListData)
    (hw : r.repeatOnDays ≠ []) (hr : r ∈ d.reminders)
    (hpast : r.startDateTime < now)
    (hnone : hasReminderNotif d.notifications r.id = false)
    (hcomp : isMediaCompleted tracked d r = false) :
    isReminderDue r now = false
    ∧ 0 < countReminderNotifs (schedulerPass now tracked mkId ts d) r.id := by
  refine ⟨weekly_reminder_never_due r now hw, ?_⟩
  have hmem : reminderNotifFor (mkId r) ts r ∈ dueNewNotifications now tracked mkId ts d := by
    unfold dueNewNotifications
    refine List.mem_map_of_mem _ (List.mem_filter.mpr ⟨hr, ?_⟩)
    simp [isPast, hpast, hnone, hcomp]
  have hlen : 0 < (dueNewNotifications now tracked mkId ts d).length := by
    rcases Nat.eq_zero_or_pos (dueNewNotifications now tracked mkId ts d).length with h0 | h0
    · rw [List.length_eq_zero] at h0
      rw [h0] at hmem
      exact absurd hmem (List.not_mem_nil _)
    · exact h0
  unfold schedulerPass
  rw [if_pos hlen]
  unfold countReminderNotifs
  simp only [List.filter_append, List.length_append]
  have hsel : reminderNotifFor (mkId r) ts r
      ∈ (dueNewNotifications now tracked mkId ts d).filter (·.isReminderFor r.id) := by
    refine List.mem_filter.mpr ⟨hmem, ?_⟩
    simp [reminderNotifFor, UserNotification.isReminderFor]
  have : 0 < ((dueNewNotifications now tracked mkId ts d).filter
      (·.isReminderFor r.id)).length := by
    rcases Nat.eq_zero_or_pos ((dueNewNotifications now tracked mkId ts d).filter
        (·.isReminderFor r.id)).length with h0 | h0
    · rw [List.length_eq_zero] at h0
      rw [h0] at hsel
      exact absurd hsel (List.not_mem_nil _)
    · exact h0
  omega

/-- Concrete instance of `weekly_due_amended`: a Monday/Thursday weekly
reminder started in the past is never due by its own check, yet gets a
notification from a single scheduler pass. -/
theorem weekly_due_amended_witness :
    (([1, 4] : List Nat) ≠ [] ∧ (0 : Nat) < 86400000) ∧
    (isReminderDue
        { id := "w2", mediaId := 2, title := "weekly2", notes := ""
          startDateTime := 0, repeatIntervalDays := 0, repeatOnDays := [1, 4]
          autoStopOnCompletion := false, createdAt := 0 } 86400000 = false
      ∧ 0 < countReminderNotifs
          (schedulerPass 86400000 [] (fun _ => "n2") "ts2"
            { initialListData with
                reminders :=
                  [{ id := "w2", mediaId := 2, title := "weekly2", notes := ""
                     startDateTime := 0, repeatIntervalDays := 0, repeatOnDays := [1, 4]
                     autoStopOnCompletion := false, createdAt := 0 }] }) "w2") :=
  ⟨⟨by decide, by decide⟩,
    weekly_due_amended
      { id := "w2", mediaId := 2, title := "weekly2", notes := ""
        startDateTime := 0, repeatIntervalDays := 0, repeatOnDays := [1, 4]
        autoStopOnCompletion := false, createdAt := 0 } 86400000 []
      (fun _ => "n2") "ts2"
      { initialListData with
          reminders :=
            [{ id := "w2", mediaId := 2, title := "weekly2", notes := ""
               startDateTime := 0, repeatIntervalDays := 0, repeatOnDays := [1, 4]
               autoStopOnCompletion := false, createdAt := 0 }] }
      (by decide) (by simp) (by decide) (by decide) (by decide)⟩

/-! ## C4 — due-once across scheduler passes -/

theorem schedulerPass_reminders (now : Nat) (tracked : List Anime)
    (mkId : Reminder → String) (ts : String) (d : ListData) :
    (schedulerPass now tracked mkId ts d).reminders = d.reminders := by
  simp only [schedulerPass]
  split <;> rfl

theorem count_pos_iff_hasNotif (notifs : List UserNotification) (rid : String) :
    0 < (notifs.filter (·.isReminderFor rid)).length ↔ hasReminderNotif notifs rid = true := by
  rw [List.length_pos]
  constructor
  · intro hne
    obtain ⟨a, ha⟩ := List.exists_mem_of_ne_nil _ hne
    exact List.any_eq_true.mpr ⟨a, (List.mem_filter.mp ha).1, (List.mem_filter.mp ha).2⟩
  · intro h
    obtain ⟨a, ha, hp⟩ := List.any_eq_true.mp h
    intro hemp
    have hmem : a ∈ notifs.filter (·.isReminderFor rid) := List.mem_filter.mpr ⟨ha, hp⟩
    rw [hemp] at hmem
    exact List.not_mem_nil a hmem

/-- One scheduler pass adds, to the notifications referencing reminder id
`rid`, exactly one notification per stored reminder that is past, not yet
notified, not suppressed, and carries id `rid`. -/
theorem countReminderNotifs_schedulerPass (now : Nat) (tracked : List Anime)
    (mkId : Reminder → String) (ts : String) (d : ListData) (rid : String) :
    countReminderNotifs (schedulerPass now tracked mkId ts d) rid
      = countReminderNotifs d rid
        + ((d.reminders.filter fun r' =>
              (isPast r'.startDateTime now && !hasReminderNotif d.notifications r'.id
                && !isMediaCompleted tracked d r') && (r'.id == rid))).length := by
  have hmap : ((dueNewNotifications now tracked mkId ts d).filter (·.isReminderFor rid)).length
      = ((d.reminders.filter fun r' =>
            (isPast r'.startDateTime now && !hasReminderNotif d.notifications r'.id
              && !isMediaCompleted tracked d r') && (r'.id == rid))).length := by
    unfold dueNewNotifications
    rw [List.filter_map, List.length_map, List.filter_filter]
    apply congrArg
    apply List.filter_congr
    intro a _
    simp only [Function.comp, reminderNotifFor, UserNotification.isReminderFor]
    exact Bool.and_comm _ _
  simp only [schedulerPass]
  split
  · unfold countReminderNotifs
    simp only [List.filter_append, List.length_append]
    rw [hmap]
  · rename_i h
    have h0 : (dueNewNotifications now tracked mkId ts d).length = 0 := by omega
    have hle := List.length_filter_le (·.isReminderFor rid) (dueNewNotifications now tracked mkId ts d)
    omega

/-- C4: running the scheduler pass N ≥ 1 times on a one-shot reminder whose
`startDateTime` is past (with a unique reminder id, no pre-existing
`reminder`-kind notification for it, and no completion suppression) creates
exactly one `reminder`-kind notification referencing that reminder's id — not
N — because a reminder already associated with an existing notification is
skipped by the `existingReminderNotifications` check. -/
theorem oneshot_reminder_notified_once (now : Nat) (tracked : List Anime)
    (mkId : Reminder → String) (ts : String) (d : ListData) (r : Reminder) (N : Nat)
    (hshot : r.repeatIntervalDays = 0 ∧ r.repeatOnDays = [])
    (hr : r ∈ d.reminders)
    (huniq : d.reminders.filter (·.id == r.id) = [r])
    (hpast : r.startDateTime < now)
    (hcomp : isMediaCompleted tracked d r = false)
    (hzero : countReminderNotifs d r.id = 0)
    (hN : 1 ≤ N) :
    countReminderNotifs ((schedulerPass now tracked mkId ts)^[N] d) r.id = 1 := by
  have hhas : hasReminderNotif d.notifications r.id = false := by
    cases hcc : hasReminderNotif d.notifications r.id
    · rfl
    · exfalso
      have hpos := (count_pos_iff_hasNotif d.notifications r.id).mpr hcc
      unfold countReminderNotifs at hzero
      omega
  have helig : (isPast r.startDateTime now && !hasReminderNotif d.notifications r.id
      && !isMediaCompleted tracked d r) = true := by
    simp [isPast, hpast, hhas, hcomp]
  have hfilter1 : (d.reminders.filter fun r' =>
      (isPast r'.startDateTime now && !hasReminderNotif d.notifications r'.id
        && !isMediaCompleted tracked d r') && (r'.id == r.id)) = [r] := by
    have hcongr : ∀ a ∈ d.reminders,
        ((isPast a.startDateTime now && !hasReminderNotif d.notifications a.id
          && !isMediaCompleted tracked d a) && (a.id == r.id)) = ((a.id == r.id) : Bool) := by
      intro a ha
      cases hid : (a.id == r.id) with
      | false => simp
      | true =>
        have hmem : a ∈ d.reminders.filter (·.id == r.id) := List.mem_filter.mpr ⟨ha, hid⟩
        rw [huniq, List.mem_singleton] at hmem
        subst hmem
        simp only [helig, Bool.true_and]
    rw [List.filter_congr hcongr, huniq]
  have step1 : countReminderNotifs (schedulerPass now tracked mkId ts d) r.id = 1 := by
    rw [countReminderNotifs_schedulerPass, hzero, hfilter1]
    rfl
  have preserve : ∀ d' : ListData, countReminderNotifs d' r.id = 1 →
      countReminderNotifs (schedulerPass now tracked mkId ts d') r.id = 1 := by
    intro d' hcount
    rw [countReminderNotifs_schedulerPass]
    have hterm : (d'.reminders.filter fun r' =>
        (isPast r'.startDateTime now && !hasReminderNotif d'.notifications r'.id
          && !isMediaCompleted tracked d' r') && (r'.id == r.id)) = [] := by
      rw [List.filter_eq_nil_iff]
      intro a _ hpa
      simp only [Bool.and_eq_true] at hpa
      obtain ⟨⟨⟨_, hnot⟩, _⟩, hid⟩ := hpa
      have hid' : a.id = r.id := eq_of_beq hid
      have hpos : 0 < countReminderNotifs d' r.id := by omega
      have hhas' : hasReminderNotif d'.notifications r.id = true :=
        (count_pos_iff_hasNotif _ _).mp hpos
      rw [hid', hhas'] at hnot
      simp at hnot
    rw [hterm, hcount]
    rfl
  have iter : ∀ n, ∀ d' : ListData, countReminderNotifs d' r.id = 1 →
      countReminderNotifs ((schedulerPass now tracked mkId ts)^[n] d') r.id = 1 := by
    intro n
    induction n with
    | zero => intro d' h; simpa using h
    | succ k ih =>
      intro d' hcount
      rw [Function.iterate_succ_apply]
      exact ih _ (preserve d' hcount)
  obtain ⟨M, rfl⟩ : ∃ M, N = M + 1 := ⟨N - 1, by omega⟩
  rw [Function.iterate_succ_apply]
  exact iter M _ step1

/-- Concrete instance of `oneshot_reminder_notified_once`: a single past
one-shot reminder, three scheduler passes, one notification. -/
theorem oneshot_reminder_notified_once_witness :
    (({ id := "o1", mediaId := 3, title := "os", notes := "", startDateTime := 0
        repeatIntervalDays := 0, repeatOnDays := [], autoStopOnCompletion := false
        createdAt := 0 } : Reminder).repeatIntervalDays = 0
      ∧ ({ id := "o1", mediaId := 3, title := "os", notes := "", startDateTime := 0
           repeatIntervalDays := 0, repeatOnDays := [], autoStopOnCompletion := false
           createdAt := 0 } : Reminder).repeatOnDays = [])
    ∧ countReminderNotifs
        ((schedulerPass 5 [] (fun _ => "n3") "ts3")^[3]
          { initialListData with
              reminders :=
                [{ id := "o1", mediaId := 3, title := "os", notes := "", startDateTime := 0
                   repeatIntervalDays := 0, repeatOnDays := [], autoStopOnCompletion := false
                   createdAt := 0 }] }) "o1" = 1 :=
  ⟨⟨rfl, rfl⟩,
    oneshot_reminder_notified_once 5 [] (fun _ => "n3") "ts3"
      { initialListData with
          reminders :=
            [{ id := "o1", mediaId := 3, title := "os", notes := "", startDateTime := 0
               repeatIntervalDays := 0, repeatOnDays := [], autoStopOnCompletion := false
               createdAt := 0 }] }
      { id := "o1", mediaId := 3, title := "os", notes := "", startDateTime := 0
        repeatIntervalDays := 0, repeatOnDays := [], autoStopOnCompletion := false
        createdAt := 0 } 3
      ⟨rfl, rfl⟩ (by decide) (by decide) (by decide) (by decide) (by decide) (by decide)⟩

/-! ## C5 — sync failure disconnects; only well-formed bodies overwrite -/

/-- Classifier of the responses the sync client treats as failures: a body
that fails JSON parsing, a body missing `profile` or `lists`, a non-ok HTTP
status, or a rejected fetch (a `304` and a well-formed `ok` are not
failures). -/
def isMalformedOrFailed : SyncResponse → Bool
  | .notModified => false
  | .ok body _ _ =>
    match body with
    | none => true
    | some data => !(data.profile.isSome && data.lists.isSome)
  | .httpError _ => true
  | .networkFailure _ => true

/-- C5: with a connected sync target, every failing sync attempt (fetch
failure, non-ok status, JSON parse failure, or a body missing `profile` or
`lists`) ends disconnected — the shared-data config is reset to all-null
fields including `url` — with every other store untouched and no reload (the
embedding consumes exactly one response, so no retry occurs); and only a
response carrying both `profile` and `lists` overwrites the local profile and
list stores, wholesale, with the fetched values. -/
theorem sync_failure_disconnects (isManual : Bool) (resp : SyncResponse) (nowStr : String)
    (st : Stores) (cfg : SharedDataConfig) (u : String)
    (hcfg : st.sharedConfig = some cfg) (hurl : cfg.url = some u) :
    (isMalformedOrFailed resp = true →
      (syncSharedData isManual resp nowStr st).stores.sharedConfig = some emptySharedConfig
      ∧ (syncSharedData isManual resp nowStr st).stores.profile = st.profile
      ∧ (syncSharedData isManual resp nowStr st).stores.listData = st.listData
      ∧ (syncSharedData isManual resp nowStr st).stores.layout = st.layout
      ∧ (syncSharedData isManual resp nowStr st).stores.tracked = st.tracked
      ∧ (syncSharedData isManual resp nowStr st).reloadScheduled = false)
    ∧ (∀ (data : SyncPayload) (profile : LocalProfile) (lists : ListData)
          (etag : Option String) (cl : Option Nat),
        resp = .ok (some data) etag cl → data.profile = some profile →
        data.lists = some lists →
          (syncSharedData isManual resp nowStr st).stores.profile = some profile
          ∧ (syncSharedData isManual resp nowStr st).stores.listData = some lists
          ∧ (syncSharedData isManual resp nowStr st).reloadScheduled = true) := by
  obtain ⟨sp, sl, sly, str, ssc⟩ := st
  simp only at hcfg
  subst hcfg
  constructor
  · intro hfail
    cases resp with
    | notModified => simp [isMalformedOrFailed] at hfail
    | ok body etag cl =>
      cases body with
      | none => simp [syncSharedData, hurl, syncFailureResult]
      | some data =>
        simp only [isMalformedOrFailed, Bool.not_eq_true'] at hfail
        cases hdp : data.profile with
        | none => simp [syncSharedData, hurl, hdp, syncFailureResult]
        | some p =>
          cases hdl : data.lists with
          | none => simp [syncSharedData, hurl, hdp, hdl, syncFailureResult]
          | some l => rw [hdp, hdl] at hfail; simp at hfail
    | httpError s => simp [syncSharedData, hurl, syncFailureResult]
    | networkFailure s => simp [syncSharedData, hurl, syncFailureResult]
  · intro data profile lists etag cl hresp hdp hdl
    subst hresp
    simp [syncSharedData, hurl, hdp, hdl]

/-- Concrete instance of `sync_failure_disconnects`: a connected config with a
stored ETag, hit by an HTTP 500. -/
theorem sync_failure_disconnects_witness :
    ({ profile := none, listData := some initialListData, layout := none, tracked := none
       sharedConfig := some { url := some "https://example.test/s.json", lastSync := none
                              lastSize := none, lastEtag := some "e1" } } : Stores).sharedConfig
        = some { url := some "https://example.test/s.json", lastSync := none
                 lastSize := none, lastEtag := some "e1" }
    ∧ ({ url := some "https://example.test/s.json", lastSync := none
         lastSize := none, lastEtag := some "e1" } : SharedDataConfig).url
        = some "https://example.test/s.json"
    ∧ ((isMalformedOrFailed (.httpError "500") = true →
        (syncSharedData false (.httpError "500") "t0"
            { profile := none, listData := some initialListData, layout := none, tracked := none
              sharedConfig := some { url := some "https://example.test/s.json", lastSync := none
                                     lastSize := none, lastEtag := some "e1" } }).stores.sharedConfig
            = some emptySharedConfig
        ∧ (syncSharedData false (.httpError "500") "t0"
            { profile := none, listData := some initialListData, layout := none, tracked := none
              sharedConfig := some { url := some "https://example.test/s.json", lastSync := none
                                     lastSize := none, lastEtag := some "e1" } }).stores.profile
            = ({ profile := none, listData := some initialListData, layout := none, tracked := none
                 sharedConfig := some { url := some "https://example.test/s.json", lastSync := none
                                        lastSize := none, lastEtag := some "e1" } } : Stores).profile
        ∧ (syncSharedData false (.httpError "500") "t0"
            { profile := none, listData := some initialListData, layout := none, tracked := none
              sharedConfig := some { url := some "https://example.test/s.json", lastSync := none
                                     lastSize := none, lastEtag := some "e1" } }).stores.listData
            = ({ profile := none, listData := some initialListData, layout := none, tracked := none
                 sharedConfig := some { url := some "https://example.test/s.json", lastSync := none
                                        lastSize := none, lastEtag := some "e1" } } : Stores).listData
        ∧ (syncSharedData false (.httpError "500") "t0"
            { profile := none, listData := some initialListData, layout := none, tracked := none
              sharedConfig := some { url := some "https://example.test/s.json", lastSync := none
                                     lastSize := none, lastEtag := some "e1" } }).stores.layout
            = ({ profile := none, listData := some initialListData, layout := none, tracked := none
                 sharedConfig := some { url := some "https://example.test/s.json", lastSync := none
                                        lastSize := none, lastEtag := some "e1" } } : Stores).layout
        ∧ (syncSharedData false (.httpError "500") "t0"
            { profile := none, listData := some initialListData, layout := none, tracked := none
              sharedConfig := some { url := some "https://example.test/s.json", lastSync := none
                                     lastSize := none, lastEtag := some "e1" } }).stores.tracked
            = ({ profile := none, listData := some initialListData, layout := none, tracked := none
                 sharedConfig := some { url := some "https://example.test/s.json", lastSync := none
                                        lastSize := none, lastEtag := some "e1" } } : Stores).tracked
        ∧ (syncSharedData false (.httpError "500") "t0"
            { profile := none, listData := some initialListData, layout := none, tracked := none
              sharedConfig := some { url := some "https://example.test/s.json", lastSync := none
                                     lastSize := none, lastEtag := some "e1" } }).reloadScheduled
            = false)
      ∧ (∀ (data : SyncPayload) (profile : LocalProfile) (lists : ListData)
            (etag : Option String) (cl : Option Nat),
          (SyncResponse.httpError "500") = .ok (some data) etag cl → data.profile = some profile →
          data.lists = some lists →
            (syncSharedData false (.httpError "500") "t0"
                { profile := none, listData := some initialListData, layout := none, tracked := none
                  sharedConfig := some { url := some "https://example.test/s.json", lastSync := none
                                         lastSize := none, lastEtag := some "e1" } }).stores.profile
              = some profile
            ∧ (syncSharedData false (.httpError "500") "t0"
                { profile := none, listData := some initialListData, layout := none, tracked := none
                  sharedConfig := some { url := some "https://example.test/s.json", lastSync := none
                                         lastSize := none, lastEtag := some "e1" } }).stores.listData
              = some lists
            ∧ (syncSharedData false (.httpError "500") "t0"
                { profile := none, listData := some initialListData, layout := none, tracked := none
                  sharedConfig := some { url := some "https://example.test/s.json", lastSync := none
                                         lastSize := none, lastEtag := some "e1" } }).reloadScheduled
              = true)) :=
  ⟨rfl, rfl,
    sync_failure_disconnects false (.httpError "500") "t0"
      { profile := none, listData := some initialListData, layout := none, tracked := none
        sharedConfig := some { url := some "https://example.test/s.json", lastSync := none
                               lastSize := none, lastEtag := some "e1" } }
      { url := some "https://example.test/s.json", lastSync := none
        lastSize := none, lastEtag := some "e1" }
      "https://example.test/s.json" rfl rfl⟩

/-! ## C6 — 304 Not Modified is a no-op; manual sync omits the ETag header -/

/-- C6: with a connected sync target holding a stored ETag, a `304 Not
Modified` response leaves every store bit-unchanged and schedules no reload;
the up-to-date notice appears exactly when the sync was manually triggered; a
manual sync sends no `If-None-Match` header for any response, while a
non-manual sync sends the stored ETag. -/
theorem sync_304_noop (isManual : Bool) (nowStr : String) (st : Stores)
    (cfg : SharedDataConfig) (u : String) (e : String)
    (hcfg : st.sharedConfig = some cfg) (hurl : cfg.url = some u)
    (het : cfg.lastEtag = some e) :
    (syncSharedData isManual .notModified nowStr st).stores = st
    ∧ (syncSharedData isManual .notModified nowStr st).reloadScheduled = false
    ∧ (syncSharedData isManual .notModified nowStr st).toastUpToDate = isManual
    ∧ (∀ resp : SyncResponse, (syncSharedData true resp nowStr st).sentIfNoneMatch = none)
    ∧ (∀ resp : SyncResponse,
        (syncSharedData false resp nowStr st).sentIfNoneMatch = some e) := by
  obtain ⟨sp, sl, sly, str, ssc⟩ := st
  simp only at hcfg
  subst hcfg
  refine ⟨?_, ?_, ?_, ?_, ?_⟩
  · simp [syncSharedData, hurl]
  · simp [syncSharedData, hurl]
  · simp [syncSharedData, hurl]
  · intro resp
    cases resp with
    | notModified => simp [syncSharedData, hurl]
    | ok body etag cl =>
      cases body with
      | none => simp [syncSharedData, hurl, syncFailureResult]
      | some data =>
        cases hdp : data.profile with
        | none => simp [syncSharedData, hurl, hdp, syncFailureResult]
        | some p =>
          cases hdl : data.lists with
          | none => simp [syncSharedData, hurl, hdp, hdl, syncFailureResult]
          | some l => simp [syncSharedData, hurl, hdp, hdl]
    | httpError s => simp [syncSharedData, hurl, syncFailureResult]
    | networkFailure s => simp [syncSharedData, hurl, syncFailureResult]
  · intro resp
    cases resp with
    | notModified => simp [syncSharedData, hurl, het]
    | ok body etag cl =>
      cases body with
      | none => simp [syncSharedData, hurl, het, syncFailureResult]
      | some data =>
        cases hdp : data.profile with
        | none => simp [syncSharedData, hurl, hdp, het, syncFailureResult]
        | some p =>
          cases hdl : data.lists with
          | none => simp [syncSharedData, hurl, hdp, hdl, het, syncFailureResult]
          | some l => simp [syncSharedData, hurl, hdp, hdl, het]
    | httpError s => simp [syncSharedData, hurl, het, syncFailureResult]
    | networkFailure s => simp [syncSharedData, hurl, het, syncFailureResult]

/-- Concrete instance of `sync_304_noop`: a manual sync against a connected
config with stored ETag "e2", receiving `304`. -/
theorem sync_304_noop_witness :
    ({ profile := none, listData := some initialListData, layout := none, tracked := none
       sharedConfig := some { url := some "https://example.test/t.json", lastSync := none
                              lastSize := none, lastEtag := some "e2" } } : Stores).sharedConfig
        = some { url := some "https://example.test/t.json", lastSync := none
                 lastSize := none, lastEtag := some "e2" }
    ∧ ({ url := some "https://example.test/t.json", lastSync := none
         lastSize := none, lastEtag := some "e2" } : SharedDataConfig).url
        = some "https://example.test/t.json"
    ∧ ({ url := some "https://example.test/t.json", lastSync := none
         lastSize := none, lastEtag := some "e2" } : SharedDataConfig).lastEtag = some "e2"
    ∧ ((syncSharedData true .notModified "t1"
          { profile := none, listData := some initialListData, layout := none, tracked := none
            sharedConfig := some { url := some "https://example.test/t.json", lastSync := none
                                   lastSize := none, lastEtag := some "e2" } }).stores
        = { profile := none, listData := some initialListData, layout := none, tracked := none
            sharedConfig := some { url := some "https://example.test/t.json", lastSync := none
                                   lastSize := none, lastEtag := some "e2" } }
      ∧ (syncSharedData true .notModified "t1"
          { profile := none, listData := some initialListData, layout := none, tracked := none
            sharedConfig := some { url := some "https://example.test/t.json", lastSync := none
                                   lastSize := none, lastEtag := some "e2" } }).reloadScheduled
          = false
      ∧ (syncSharedData true .notModified "t1"
          { profile := none, listData := some initialListData, layout := none, tracked := none
            sharedConfig := some { url := some "https://example.test/t.json", lastSync := none
                                   lastSize := none, lastEtag := some "e2" } }).toastUpToDate
          = true
      ∧ (∀ resp : SyncResponse,
          (syncSharedData true resp "t1"
            { profile := none, listData := some initialListData, layout := none, tracked := none
              sharedConfig := some { url := some "https://example.test/t.json", lastSync := none
                                     lastSize := none, lastEtag := some "e2" } }).sentIfNoneMatch
            = none)
      ∧ (∀ resp : SyncResponse,
          (syncSharedData false resp "t1"
            { profile := none, listData := some initialListData, layout := none, tracked := none
              sharedConfig := some { url := some "https://example.test/t.json", lastSync := none
                                     lastSize := none, lastEtag := some "e2" } }).sentIfNoneMatch
            = some "e2")) :=
  ⟨rfl, rfl, rfl,
    sync_304_noop true "t1"
      { profile := none, listData := some initialListData, layout := none, tracked := none
        sharedConfig := some { url := some "https://example.test/t.json", lastSync := none
                               lastSize := none, lastEtag := some "e2" } }
      { url := some "https://example.test/t.json", lastSync := none
        lastSize := none, lastEtag := some "e2" }
      "https://example.test/t.json" "e2" rfl rfl rfl⟩

/-! ## C2 — trackedMedia vs. list-membership after reconciliation -/

theorem mem_toggleList_of_ne (l : List Nat) (x y : Nat) (h : y ≠ x) :
    y ∈ toggleList l x ↔ y ∈ l := by
  by_cases hx : x ∈ l
  · rw [toggleList_of_mem l x hx]
    simp [List.mem_filter, h]
  · rw [toggleList_of_not_mem l x hx]
    simp [h]

theorem contains_toggleList_of_ne (l : List Nat) (x y : Nat) (h : y ≠ x) :
    (toggleList l x).contains y = l.contains y := by
  have h1 : (toggleList l x).contains y = decide (y ∈ toggleList l x) := by
    simp [List.elem_iff]
  have h2 : l.contains y = decide (y ∈ l) := by
    simp [List.elem_iff]
  rw [h1, h2]
  simp [mem_toggleList_of_ne l x y h]

theorem inAnyList_handleToggleUpdate_ne (mediaId : Nat) (n : PrimaryList) (d : ListData)
    (x : Nat) (h : x ≠ mediaId) :
    inAnyList (handleToggleUpdate mediaId n d) x = inAnyList d x := by
  cases n <;>
    simp [inAnyList, handleToggleUpdate, setList, getList,
      mem_toggleList_of_ne _ _ _ h]

/-- The persisted value of a mutation has the same four primary lists as the
merged in-memory value: a quota veto only appends a notification. -/
theorem inAnyList_mutation_store (est : Option Nat) (i t : String)
    (f : ListData → ListData) (m : ListData) (x : Nat) :
    inAnyList (updateAndPersistListData est i t f m).store x = inAnyList (f m) x := by
  unfold updateAndPersistListData checkStorageAndNotify
  cases est with
  | none => rfl
  | some usage =>
    by_cases hq : usage > effectiveQuota (f m)
    · simp only [if_pos hq]
      rfl
    · simp only [if_neg hq]

theorem trackedHas_filter_ne (tracked : List Anime) (mediaId x : Nat) (h : x ≠ mediaId) :
    trackedHas (tracked.filter (·.id ≠ mediaId)) x = trackedHas tracked x := by
  rw [Bool.eq_iff_iff]
  simp only [trackedHas, List.any_eq_true, List.mem_filter]
  constructor
  · rintro ⟨a, ⟨ha, _⟩, hid⟩
    exact ⟨a, ha, hid⟩
  · rintro ⟨a, ha, hid⟩
    have haid : a.id = x := by simpa using hid
    refine ⟨a, ⟨ha, ?_⟩, hid⟩
    simp [haid, h]

theorem trackedHas_filter_self (tracked : List Anime) (mediaId : Nat) :
    trackedHas (tracked.filter (·.id ≠ mediaId)) mediaId = false := by
  rw [Bool.eq_false_iff]
  intro hc
  simp only [trackedHas, List.any_eq_true, List.mem_filter] at hc
  obtain ⟨a, ⟨_, hne⟩, hid⟩ := hc
  have haid : a.id = mediaId := by simpa using hid
  simp [haid] at hne

theorem trackedHas_append_single (tracked : List Anime) (m : Anime) (x : Nat) :
    trackedHas (tracked ++ [m]) x = (trackedHas tracked x || (m.id == x)) := by
  simp [trackedHas, List.any_append]

/-- C2 counterexample: with `currentlyWatching = [7]`, the id tracked, and the
invariant holding, calling `toggleCurrentlyWatching` (toggle OFF) removes 7
from every list but its ~100ms step only *ensures* tracked membership — it
never removes — so afterwards id 7 is in `trackedMedia` while in none of the
four freshly persisted lists: the claimed iff fails for
`toggleCurrentlyWatching`. -/
theorem tracked_invariant_counterexample :
    trackedHas
        (toggleCurrentlyWatching none "n" "t"
          { id := 7, type := "ANIME", episodes := none, chapters := none, volumes := none
            title := "a", synopsis := none }
          { memory := { initialListData with currentlyWatching := [7] }
            store := { initialListData with currentlyWatching := [7] }
            tracked := [{ id := 7, type := "ANIME", episodes := none, chapters := none
                          volumes := none, title := "a", synopsis := none }] }).tracked 7 = true
    ∧ inAnyList
        (toggleCurrentlyWatching none "n" "t"
          { id := 7, type := "ANIME", episodes := none, chapters := none, volumes := none
            title := "a", synopsis := none }
          { memory := { initialListData with currentlyWatching := [7] }
            store := { initialListData with currentlyWatching := [7] }
            tracked := [{ id := 7, type := "ANIME", episodes := none, chapters := none
                          volumes := none, title := "a", synopsis := none }] }).store 7 = false := by
  constructor
  · rfl
  · rfl

/-- C2 (amended): after the ~100ms reconciliation of
`handleToggleListMembership` the iff holds for every id — the step reads the
freshly persisted data and adds or removes the toggled id accordingly, so a
state satisfying "id ∈ trackedMedia ⟺ id ∈ union of the four lists" still
satisfies it afterwards. The reconciliation of `toggleCurrentlyWatching` /
`toggleCurrentlyReading`, however, only guarantees the forward direction for
the toggled id: the id is always in `trackedMedia` afterwards (even when the
toggle removed it from every list), and is never removed. -/
theorem tracked_invariant_amended (est : Option Nat) (notifId ts : String)
    (media : Anime) (n : PrimaryList) (s : ToggleState)
    (hsync : s.store = s.memory)
    (hinv : ∀ x : Nat, trackedHas s.tracked x = inAnyList s.store x) :
    (∀ x : Nat,
        trackedHas (handleToggleListMembership est notifId ts media n s).tracked x
          = inAnyList (handleToggleListMembership est notifId ts media n s).store x)
    ∧ trackedHas (toggleCurrentlyWatching est notifId ts media s).tracked media.id = true
    ∧ trackedHas (toggleCurrentlyReading est notifId ts media s).tracked media.id = true := by
  refine ⟨?_, ?_, ?_⟩
  · intro x
    unfold handleToggleListMembership
    simp only
    have hlists : ∀ y,
        inAnyList (updateAndPersistListData est notifId ts
          (handleToggleUpdate media.id n) s.memory).store y
          = inAnyList (handleToggleUpdate media.id n s.memory) y :=
      fun y => inAnyList_mutation_store est notifId ts _ s.memory y
    unfold reconcileTracked
    by_cases hin : inAnyList (updateAndPersistListData est notifId ts
        (handleToggleUpdate media.id n) s.memory).store media.id = true
    · rw [if_pos hin]
      by_cases htr : trackedHas s.tracked media.id = true
      · rw [if_pos htr]
        by_cases hx : x = media.id
        · subst hx
          rw [htr, hin]
        · rw [hlists x, inAnyList_handleToggleUpdate_ne media.id n s.memory x hx,
            ← hsync, hinv x]
      · rw [if_neg htr]
        rw [trackedHas_append_single]
        by_cases hx : x = media.id
        · subst hx
          rw [hin]
          simp [stripSynopsis]
        · have hne : ((stripSynopsis media).id == x) = false := by
            simp [stripSynopsis]
            exact fun hc => hx hc.symm
          rw [hne, Bool.or_false, hlists x,
            inAnyList_handleToggleUpdate_ne media.id n s.memory x hx, ← hsync, hinv x]
    · rw [if_neg hin]
      by_cases hx : x = media.id
      · subst hx
        rw [trackedHas_filter_self]
        exact (Bool.not_eq_true _).mp hin |>.symm
      · rw [trackedHas_filter_ne s.tracked media.id x hx, hlists x,
          inAnyList_handleToggleUpdate_ne media.id n s.memory x hx, ← hsync, hinv x]
  · unfold toggleCurrentlyWatching ensureTracked
    simp only
    by_cases htr : trackedHas s.tracked media.id = true
    · rw [if_pos htr]
      exact htr
    · rw [if_neg htr, trackedHas_append_single]
      simp [stripSynopsis]
  · unfold toggleCurrentlyReading ensureTracked
    simp only
    by_cases htr : trackedHas s.tracked media.id = true
    · rw [if_pos htr]
      exact htr
    · rw [if_neg htr, trackedHas_append_single]
      simp [stripSynopsis]

/-- Concrete instance of `tracked_invariant_amended`: empty initial state
(invariant holds trivially), toggling id 9 into `planToWatch`. -/
theorem tracked_invariant_amended_witness :
    ({ memory := initialListData, store := initialListData, tracked := [] } : ToggleState).store
        = ({ memory := initialListData, store := initialListData, tracked := [] } : ToggleState).memory
    ∧ (∀ x : Nat, trackedHas [] x = inAnyList initialListData x)
    ∧ ((∀ x : Nat,
        trackedHas (handleToggleListMembership none "w2" "ts"
            { id := 9, type := "ANIME", episodes := none, chapters := none, volumes := none
              title := "m", synopsis := none } .planToWatch
            { memory := initialListData, store := initialListData, tracked := [] }).tracked x
          = inAnyList (handleToggleListMembership none "w2" "ts"
            { id := 9, type := "ANIME", episodes := none, chapters := none, volumes := none
              title := "m", synopsis := none } .planToWatch
            { memory := initialListData, store := initialListData, tracked := [] }).store x)
      ∧ trackedHas (toggleCurrentlyWatching none "w2" "ts"
            { id := 9, type := "ANIME", episodes := none, chapters := none, volumes := none
              title := "m", synopsis := none }
            { memory := initialListData, store := initialListData, tracked := [] }).tracked 9 = true
      ∧ trackedHas (toggleCurrentlyReading none "w2" "ts"
            { id := 9, type := "ANIME", episodes := none, chapters := none, volumes := none
              title := "m", synopsis := none }
            { memory := initialListData, store := initialListData, tracked := [] }).tracked 9
          = true) :=
  ⟨rfl, fun _ => rfl,
    tracked_invariant_amended none "w2" "ts"
      { id := 9, type := "ANIME", episodes := none, chapters := none, volumes := none
        title := "m", synopsis := none } .planToWatch
      { memory := initialListData, store := initialListData, tracked := [] }
      rfl (fun _ => rfl)⟩

/-! ## C8 — effective hidden genre/tag set -/

theorem mem_jsSetDedup (l : List String) (a : String) : a ∈ jsSetDedup l ↔ a ∈ l := by
  induction l using jsSetDedup.induct with
  | case1 => simp [jsSetDedup]
  | case2 x xs ih =>
    rw [jsSetDedup]
    by_cases hax : a = x
    · subst hax
      simp
    · simp only [List.mem_cons, ih, List.mem_filter]
      constructor
      · rintro (h | ⟨h, _⟩)
        · exact Or.inl h
        · exact Or.inr h
      · rintro (h | h)
        · exact Or.inl h
        · exact Or.inr ⟨h, by simp [hax]⟩

/-- C8 counterexample: `getHiddenGenres` filters the hidden list against the
`genres_list` catalog, so a stored hidden name absent from the catalog is
dropped. With `sensitiveContentUnlocked = true` and `hiddenGenres =
["NotARealGenre"]`, the claim says the effective set is exactly
`{"NotARealGenre"}`, but the code returns the empty pair (catalog and
sensitive list here modelled concretely, since both live outside `src/`). -/
theorem genre_hide_counterexample :
    (getHiddenGenres ["Hentai", "Gore"]
        [{ name := "Ecchi", type := "genre" }, { name := "Hentai", type := "genre" },
         { name := "Gore", type := "tag" }]
        (some { initialListData with
                  hiddenGenres := ["NotARealGenre"], sensitiveContentUnlocked := true })).1 = []
    ∧ (getHiddenGenres ["Hentai", "Gore"]
        [{ name := "Ecchi", type := "genre" }, { name := "Hentai", type := "genre" },
         { name := "Gore", type := "tag" }]
        (some { initialListData with
                  hiddenGenres := ["NotARealGenre"], sensitiveContentUnlocked := true })).2 = []
    ∧ "NotARealGenre" ∈ ({ initialListData with
            hiddenGenres := ["NotARealGenre"],
            sensitiveContentUnlocked := true } : ListData).hiddenGenres := by
  refine ⟨rfl, rfl, ?_⟩
  simp

/-- C8 (amended): for every catalog, sensitive list and stored list data, a
name is in the effective hidden set (hidden genres together with hidden tags)
iff it is in the user's hidden list when `sensitiveContentUnlocked` is true —
respectively in `SENSITIVE_GENRES ∪ hiddenGenres` when it is false — AND it
names a catalog entry whose type is `genre` or `tag`: the claimed equality
holds only after intersecting with the catalog. -/
theorem genre_hide_amended (sens : List String) (cat : List GenreEntry)
    (d : ListData) (g : String) :
    (g ∈ (getHiddenGenres sens cat (some d)).1 ∨ g ∈ (getHiddenGenres sens cat (some d)).2)
      ↔ ((if d.sensitiveContentUnlocked then g ∈ d.hiddenGenres
            else g ∈ sens ∨ g ∈ d.hiddenGenres)
          ∧ g ∈ cat.map (·.name)
          ∧ (((cat.find? (·.name == g)).map (·.type)) = some "genre"
              ∨ ((cat.find? (·.name == g)).map (·.type)) = some "tag")) := by
  by_cases hsu : d.sensitiveContentUnlocked = true
  · simp only [getHiddenGenres, if_pos hsu, List.mem_filter, List.elem_iff]
    constructor
    · rintro (⟨⟨hmem, hcat⟩, hty⟩ | ⟨⟨hmem, hcat⟩, hty⟩)
      · exact ⟨hmem, by simpa using hcat, Or.inl (by simpa using hty)⟩
      · exact ⟨hmem, by simpa using hcat, Or.inr (by simpa using hty)⟩
    · rintro ⟨hmem, hcat, hty | hty⟩
      · exact Or.inl ⟨⟨hmem, by simpa using hcat⟩, by simpa using hty⟩
      · exact Or.inr ⟨⟨hmem, by simpa using hcat⟩, by simpa using hty⟩
  · simp only [getHiddenGenres, if_neg hsu, List.mem_filter, List.elem_iff,
      mem_jsSetDedup, List.mem_append]
    constructor
    · rintro (⟨⟨hmem, hcat⟩, hty⟩ | ⟨⟨hmem, hcat⟩, hty⟩)
      · exact ⟨hmem, by simpa using hcat, Or.inl (by simpa using hty)⟩
      · exact ⟨hmem, by simpa using hcat, Or.inr (by simpa using hty)⟩
    · rintro ⟨hmem, hcat, hty | hty⟩
      · exact Or.inl ⟨⟨hmem, by simpa using hcat⟩, by simpa using hty⟩
      · exact Or.inr ⟨⟨hmem, by simpa using hcat⟩, by simpa using hty⟩

end MyAnimeSync
